import Mathlib

/-!
# Reporting backend: authentication gate, login, report service

A shallow embedding of the Express backend under `src/be`:

* `middleware/auth.js`  : `protect`
* `routes/routes.js`    : the six routes and the multer storage
* `models/User.js`, `models/Report.js` : the two tables
* `services/form.js`    : `toJakartaTime`, `submitReport`, `getReports`, `getDailyReports`
* `services/user.js`    : `getAllUsers`, `getUserById`, `createUser`, `updateUser`,
  `deleteUser`, `createInitialAdmin`

Asynchronous handlers are embedded as pure functions over an explicit store
(`Db`), an explicit clock and explicit fresh identifiers.  What a middleware
does to `(req, res, next)` is recorded in a `Ctx`: the value bound to
`req.user`, the responses written, and how often `next` was called.

Third-party libraries are not part of the repository.  `jsonwebtoken` is
embedded through an abstract serialisation (`JwtCodec`) with the checks of
`sign` and `verify` written out; `date-fns` and `date-fns-tz` are embedded by
the arithmetic they perform on the instant of a `Date`.
-/

namespace ReportApp

/-! ## JavaScript values -/

/-- The JavaScript values that reach the handlers through `req.body`,
`req.file` and record fields: `undefined`, `null`, strings, and the file
object multer attaches (only its `path` is ever read). -/
inductive JsAtom where
  | undefined
  | null
  | str (s : String)
  | file (path : String)
  deriving DecidableEq, Repr

/-- JavaScript truthiness: `undefined`, `null` and the empty string are
falsy, every object is truthy. -/
def JsAtom.truthy : JsAtom → Bool
  | .undefined => false
  | .null => false
  | .str s => decide (s ≠ "")
  | .file _ => true

/-- String conversion as performed by a template literal. -/
def JsAtom.toStr : JsAtom → String
  | .undefined => "undefined"
  | .null => "null"
  | .str s => s
  | .file _ => "[object Object]"

/-- A plain object: its own enumerable properties, first binding wins. -/
abbrev JsObj := List (String × JsAtom)

/-- Property read `o.k`; a missing property reads as `undefined`. -/
def JsObj.get (o : JsObj) (k : String) : JsAtom :=
  (o.lookup k).getD .undefined

/-- A value passed as an argument: an atom or an object. -/
inductive JsVal where
  | atom (a : JsAtom)
  | obj (o : JsObj)
  deriving DecidableEq, Repr

/-- An `Error` as seen by the route handlers: its message and the optional
`statusCode` property. -/
structure JsError where
  message : String
  statusCode : Option Nat
  deriving DecidableEq, Repr

deriving instance DecidableEq for Except

/-- The expression `error.statusCode || 500` of the route handlers. -/
def JsError.status (e : JsError) : Nat :=
  match e.statusCode with
  | some c => if c = 0 then 500 else c
  | none => 500

/-! ## Data model (`models/User.js`, `models/Report.js`) -/

/-- The column `role: DataTypes.ENUM('admin', 'user')`. -/
inductive Role where
  | admin
  | user
  deriving DecidableEq, Repr

/-- The string stored for a role. -/
def Role.toString : Role → String
  | .admin => "admin"
  | .user => "user"

/-- Reading a string as a value of the role enumeration. -/
def Role.ofString? (s : String) : Option Role :=
  if s = "admin" then some .admin else if s = "user" then some .user else none

/-- A row of the `Users` table. -/
structure User where
  id : String
  username : String
  password : String
  role : Role
  first_name : Option String
  last_name : Option String
  position : Option String
  odoo_batch_id : Option String
  createdAt : Nat
  updatedAt : Nat
  deriving DecidableEq, Repr

/-- A user row loaded with `attributes: { exclude: ['password'] }`, or with
the password removed by destructuring: every column but `password`. -/
structure PublicUser where
  id : String
  username : String
  role : Role
  first_name : Option String
  last_name : Option String
  position : Option String
  odoo_batch_id : Option String
  createdAt : Nat
  updatedAt : Nat
  deriving DecidableEq, Repr

/-- Projection that drops the password column. -/
def User.toPublic (u : User) : PublicUser :=
  { id := u.id, username := u.username, role := u.role,
    first_name := u.first_name, last_name := u.last_name,
    position := u.position, odoo_batch_id := u.odoo_batch_id,
    createdAt := u.createdAt, updatedAt := u.updatedAt }

/-- A row of the `Reports` table.  `createdAt` is in milliseconds since the
epoch. -/
structure Report where
  id : String
  userId : String
  location : String
  name : String
  photo : Option String
  submissionTime : String
  endTime : Option String
  description : String
  createdAt : Nat
  updatedAt : Nat
  deriving DecidableEq, Repr

/-- The relational store: both tables, in insertion order. -/
structure Db where
  users : List User
  reports : List Report
  deriving DecidableEq, Repr

/-- The query `User.findOne({ where: { username } })`. -/
def Db.findOneByUsername (db : Db) (username : String) : Option User :=
  db.users.find? (fun u => decide (u.username = username))

/-- The query `User.findByPk(id)`; an `undefined` key finds nothing. -/
def Db.findByPk (db : Db) (id : Option String) : Option User :=
  match id with
  | none => none
  | some i => db.users.find? (fun u => decide (u.id = i))

/-- The method `matchPassword` of `models/User.js`: strict equality with the
stored password.  Only a string can be strictly equal to a string. -/
def User.matchPassword (u : User) (enteredPassword : JsAtom) : Bool :=
  decide (enteredPassword = JsAtom.str u.password)

/-! ## Token service (`jsonwebtoken`) -/

/-- The claims carried by a token.  Times are whole seconds since the epoch. -/
structure JwtPayload where
  id : Option String
  role : Option Role
  iat : Nat
  exp : Option Nat
  deriving DecidableEq, Repr

/-- A token in symbolic form: its claims and the key its signature was
computed with. -/
structure SignedJwt where
  payload : JwtPayload
  key : String
  deriving DecidableEq, Repr

/-- The compact serialisation of tokens, kept abstract: `encode` writes a
signed token as a string, `decode` reads a string back (`none` when the
string is not a well-formed token). -/
structure JwtCodec where
  encode : SignedJwt → String
  decode : String → Option SignedJwt

/-- The token `jwt.sign` builds from the payload `{ id, role }` at clock
`clock` (seconds): `iat` is the clock, `exp` is `iat + expiresIn`, and the
signature is made with `secret`. -/
def issuedToken (id : String) (role : Role) (secret : String)
    (expiresIn clock : Nat) : SignedJwt :=
  { payload := { id := some id, role := some role, iat := clock,
                 exp := some (clock + expiresIn) },
    key := secret }

/-- The call `jwt.sign(payload, secret, { expiresIn })` at clock `clock`
(seconds): it throws (`none`) on a falsy secret, otherwise serialises the
stamped token. -/
def jwtSign (codec : JwtCodec) (id : String) (role : Role) (secret : String)
    (expiresIn clock : Nat) : Option String :=
  if secret = "" then none
  else some (codec.encode (issuedToken id role secret expiresIn clock))

/-- The call `jwt.verify(token, secret)` at clock `clock` (seconds); `none`
stands for a thrown error.  It throws when the token is missing or empty,
when it is malformed, when the secret is falsy, when the signature was made
with another key, and when `clock >= exp`. -/
def jwtVerify (codec : JwtCodec) (token : Option String) (secret : String)
    (clock : Nat) : Option JwtPayload :=
  match token with
  | none => none
  | some t =>
    if t = "" then none
    else
      match codec.decode t with
      | none => none
      | some signed =>
        if secret = "" then none
        else if signed.key ≠ secret then none
        else
          match signed.payload.exp with
          | some e => if e ≤ clock then none else some signed.payload
          | none => some signed.payload

/-- The option `expiresIn: '1d'` of the login route, in seconds. -/
def oneDay : Nat := 86400

/-! ## Responses and middleware effects -/

/-- What a call of the report service resolves to: one report or a list. -/
inductive ServiceResult where
  | report (r : Report)
  | reports (rs : List Report)
  deriving DecidableEq, Repr

/-- The JSON bodies the routes send. -/
inductive ResBody where
  | message (m : String)
  | login (message token : String) (role : Role)
  | users (us : List PublicUser)
  | user (u : PublicUser)
  | submitted (message : String) (report : ServiceResult)
  | json (v : ServiceResult)
  deriving DecidableEq, Repr

/-- One response written with `res.status(s).json(body)`. -/
structure Res where
  status : Nat
  body : ResBody
  deriving DecidableEq, Repr

/-- The token of a login response, if it carries one. -/
def Res.token? (r : Res) : Option String :=
  match r.body with
  | .login _ t _ => some t
  | _ => none

/-- What a middleware has done: the value bound to `req.user`, the responses
written so far (in order), and the number of calls of `next`. -/
structure Ctx where
  user : Option PublicUser
  sent : List Res
  nextCalls : Nat
  deriving DecidableEq, Repr

/-! ## Auth gate (`middleware/auth.js`) -/

/-- The method `String.prototype.split(' ')`, on character lists. -/
def splitSpace : List Char → List (List Char)
  | [] => [[]]
  | c :: cs =>
    if c = ' ' then [] :: splitSpace cs
    else
      match splitSpace cs with
      | [] => [[c]]
      | w :: ws => (c :: w) :: ws

/-- The expression `req.headers.authorization.split(' ')[1]`; `none` is
`undefined`. -/
def bearerToken (authorization : String) : Option String :=
  ((splitSpace authorization.toList)[1]?).map String.mk

/-- The test `req.headers.authorization &&
req.headers.authorization.startsWith('Bearer')`. -/
def hasBearer (authorization : Option String) : Bool :=
  match authorization with
  | none => false
  | some h => decide (h ≠ "") && "Bearer".toList.isPrefixOf h.toList

/-- Falsiness of the local variable `token`. -/
def tokenFalsy (token : Option String) : Bool :=
  match token with
  | none => true
  | some t => decide (t = "")

def msgNoToken : String := "Not authorized, no token provided"
def msgTokenFailed : String := "Not authorized, token failed"
def msgUserNotFound : String := "User not found for this token"

/-- The message of the 403 response. -/
def msgAccessDenied (requiredRole : Role) : String :=
  "Access denied. Requires '" ++ requiredRole.toString ++ "' role."

/-- The middleware `protect(requiredRole)` applied to a request whose
`Authorization` header is `authorization`, at clock `clock` (seconds).
`requiredRole = none` is the call `protect()`. -/
def protect (codec : JwtCodec) (secret : String) (clock : Nat) (db : Db)
    (requiredRole : Option Role) (authorization : Option String) : Ctx :=
  if hasBearer authorization then
    let token := bearerToken (authorization.getD "")
    match jwtVerify codec token secret clock with
    | none =>
      -- catch (error)
      { user := none, sent := [⟨401, .message msgTokenFailed⟩], nextCalls := 0 }
    | some decoded =>
      match (db.findByPk decoded.id).map User.toPublic with
      | none =>
        { user := none, sent := [⟨401, .message msgUserNotFound⟩], nextCalls := 0 }
      | some u =>
        match requiredRole with
        | some r =>
          if u.role ≠ r then
            { user := some u, sent := [⟨403, .message (msgAccessDenied r)⟩],
              nextCalls := 0 }
          else
            -- next(); then the trailing `if (!token)`
            { user := some u,
              sent := if tokenFalsy token then [⟨401, .message msgNoToken⟩] else [],
              nextCalls := 1 }
        | none =>
          { user := some u,
            sent := if tokenFalsy token then [⟨401, .message msgNoToken⟩] else [],
            nextCalls := 1 }
  else
    -- `token` is still undefined
    { user := none, sent := [⟨401, .message msgNoToken⟩], nextCalls := 0 }

/-! ## Time of day (`date-fns`, `date-fns-tz`) -/

/-- A decimal number `num / 10 ^ scale`, as read from a time unit such as
`07` or `07.5`. -/
structure TimeUnit where
  num : Nat
  scale : Nat
  deriving DecidableEq, Repr

/-- Value of a decimal digit character. -/
def digitVal (c : Char) : Nat := c.toNat - 48

/-- Value of a run of decimal digits. -/
def digitsVal (ds : List Char) : Nat :=
  ds.foldl (fun a c => a * 10 + digitVal c) 0

/-- Every way to match `\d*` at the front, longest first: the digits taken
and the rest. -/
def digitRuns : List Char → List (List Char × List Char)
  | [] => [([], [])]
  | c :: cs =>
    if c.isDigit then
      (digitRuns cs).map (fun p => (c :: p.1, p.2)) ++ [([], c :: cs)]
    else [([], c :: cs)]

/-- Every way to match `\d{2}(?:[.,]\d*)?` at the front, in the order a
backtracking matcher tries them: the unit read and the rest. -/
def unitAlts : List Char → List (TimeUnit × List Char)
  | a :: b :: rest =>
    if a.isDigit && b.isDigit then
      let n := digitVal a * 10 + digitVal b
      (match rest with
        | c :: rest' =>
          if c = '.' ∨ c = ',' then
            (digitRuns rest').map
              (fun p => (⟨n * 10 ^ p.1.length + digitsVal p.1, p.1.length⟩, p.2))
          else []
        | [] => []) ++ [(⟨n, 0⟩, rest)]
    else []
  | _ => []

/-- Every way to match `:?` at the front. -/
def sepAlts : List Char → List (List Char)
  | ':' :: rest => [rest, ':' :: rest]
  | cs => [cs]

/-- Every way to match the optional group `(?::?(\d{2}(?:[.,]\d*)?))?`. -/
def optUnitAlts (cs : List Char) : List (Option TimeUnit × List Char) :=
  ((sepAlts cs).flatMap fun r => (unitAlts r).map fun p => (some p.1, p.2)) ++ [(none, cs)]

/-- The captures of `timeRegex`, the anchored pattern
`^(\d{2}(?:[.,]\d*)?)(?::?(\d{2}(?:[.,]\d*)?))?(?::?(\d{2}(?:[.,]\d*)?))?$`
of `parseISO`: hours, minutes, seconds of the first match that reaches the
end of the input. -/
def matchTime (cs : List Char) : Option (TimeUnit × Option TimeUnit × Option TimeUnit) :=
  ((unitAlts cs).flatMap fun h =>
    (optUnitAlts h.2).flatMap fun m =>
      (optUnitAlts m.2).flatMap fun s =>
        if s.2 = [] then [(h.1, m.1, s.1)] else []).head?

/-- The helper `parseTimeUnit`: a missing capture counts as zero. -/
def parseTimeUnit (u : Option TimeUnit) : TimeUnit := u.getD ⟨0, 0⟩

/-- The helper `validateTime(hours, minutes, seconds)` of `parseISO`:
`24:00:00` is accepted, otherwise hours lie in `[0, 25)` and minutes and
seconds in `[0, 60)`. -/
def validateTime (h m s : TimeUnit) : Bool :=
  if h.num = 24 * 10 ^ h.scale then decide (m.num = 0) && decide (s.num = 0)
  else decide (s.num < 60 * 10 ^ s.scale) && decide (m.num < 60 * 10 ^ m.scale)
    && decide (h.num < 25 * 10 ^ h.scale)

/-- The helper `parseTime` of `parseISO`: milliseconds after midnight, `none`
for `NaN`.  The sum `hours * 3600000 + minutes * 60000 + seconds * 1000` is
taken exactly and cut to whole milliseconds, as the `Date` constructor does. -/
def parseTime (cs : List Char) : Option Nat :=
  match matchTime cs with
  | none => none
  | some (h, m, s) =>
    let m := parseTimeUnit m
    let s := parseTimeUnit s
    if validateTime h m s then
      some ((h.num * 3600000 * 10 ^ (m.scale + s.scale)
            + m.num * 60000 * 10 ^ (h.scale + s.scale)
            + s.num * 1000 * 10 ^ (h.scale + m.scale))
          / 10 ^ (h.scale + m.scale + s.scale))
    else none

/-- Line terminators, which `.` of a regular expression does not match. -/
def isLineTerminator (c : Char) : Bool :=
  c = '\n' || c = '\r' || c.toNat = 0x2028 || c.toNat = 0x2029

/-- The call ``parseISO(`1970-01-01T${utcTime}Z`)`` of `toJakartaTime`,
followed by `getTime()`: milliseconds since the epoch, `none` for an
invalid date.  The date part is always `1970-01-01`, instant `0`.  A `T` or
a blank in `utcTime` gives more than two parts, hence an invalid date; the
time part ends where the zone designator begins, at the first of `Z`, `+`,
`-`; an empty time part counts as midnight. -/
def parseISOTime (utcTime : String) : Option Nat :=
  let cs := utcTime.toList
  if cs.any (fun c => c = 'T' || c = ' ') then none
  else if cs.any isLineTerminator then none
  else
    let time := cs.takeWhile (fun c => !(c = 'Z' || c = '+' || c = '-'))
    if time = [] then some 0 else parseTime time

/-- A JavaScript `Date`: its instant, in milliseconds since the epoch. -/
abbrev JsDate := Int

/-- Offset of `Asia/Jakarta` from UTC in milliseconds: seven hours, without
daylight saving, throughout the period the code can observe. -/
def jakartaOffsetMs : Int := 7 * 3600000

/-- The call `utcToZonedTime(date, 'Asia/Jakarta')` on a host whose local
time is UTC plus `hostOffsetMs`: the `Date` whose local fields show the wall
clock in Jakarta at the instant `date`. -/
def utcToZonedTime (hostOffsetMs : Int) (date : JsDate) : JsDate :=
  date + jakartaOffsetMs - hostOffsetMs

/-- The character of a decimal digit. -/
def digitChar (d : Nat) : Char := Char.ofNat (48 + d)

/-- Two decimal digits, zero padded, of a number below one hundred. -/
def pad2 (n : Nat) : List Char := [digitChar (n / 10), digitChar (n % 10)]

/-- The text `HH:mm:ss` of given hours, minutes and seconds. -/
def hhmmss (h m s : Nat) : String :=
  String.mk (pad2 h ++ ':' :: pad2 m ++ ':' :: pad2 s)

/-- The call `format(date, 'HH:mm:ss')`: the local fields of `date` on a
host whose local time is UTC plus `hostOffsetMs`. -/
def formatHHmmss (hostOffsetMs : Int) (date : JsDate) : String :=
  let loc := date + hostOffsetMs
  hhmmss (loc / 3600000 % 24).toNat (loc / 60000 % 60).toNat (loc / 1000 % 60).toNat

/-- The function `toJakartaTime` of `services/form.js`; the argument is
interpolated into the template string. -/
def toJakartaTime (hostOffsetMs : Int) (utcTime : JsAtom) : Except JsError JsDate :=
  match parseISOTime utcTime.toStr with
  | none => .error ⟨"Invalid UTC time format: " ++ utcTime.toStr, none⟩
  | some ms => .ok (utcToZonedTime hostOffsetMs (ms : Int))

/-- The expression `format(toJakartaTime(t), 'HH:mm:ss')` of `submitReport`. -/
def normalizeTime (hostOffsetMs : Int) (t : JsAtom) : Except JsError String :=
  (toJakartaTime hostOffsetMs t).map (formatHHmmss hostOffsetMs)

/-! ## Report service (`services/form.js`) -/

/-- A value that must be a string. -/
def JsAtom.asString? : JsAtom → Option String
  | .str s => some s
  | _ => none

/-- A value for a nullable string column: `undefined` and `null` store
`NULL`; an object is rejected. -/
def JsAtom.asNullableString? : JsAtom → Option (Option String)
  | .undefined => some none
  | .null => some none
  | .str s => some (some s)
  | .file _ => none

/-- Object destructuring `const { ... } = v`: it throws on `undefined` and
`null`; a string or a file object has none of the properties read. -/
def destructure (v : JsVal) : Except JsError JsObj :=
  match v with
  | .obj o => .ok o
  | .atom .undefined => .error ⟨"Cannot destructure property of undefined", none⟩
  | .atom .null => .error ⟨"Cannot destructure property of null", none⟩
  | .atom _ => .ok []

/-- The call `Report.create({ userId, name, location, photo, submissionTime,
endTime, description })` against `models/Report.js`: `userId`, `name`,
`location` and `description` are `allowNull: false` strings, `userId`
references `Users.id`; the row receives a generated id and the current time. -/
def Report.create (db : Db) (userId : JsVal) (name location photo : JsAtom)
    (submissionTime : String) (endTime : Option String) (description : JsAtom)
    (newId : String) (nowMs : Nat) : Except JsError (Db × Report) :=
  match userId, name.asString?, location.asString?, photo.asNullableString?,
      description.asString? with
  | .atom (.str uid), some n, some l, some ph, some d =>
    if db.users.any (fun u => decide (u.id = uid)) then
      let r : Report :=
        { id := newId, userId := uid, location := l, name := n, photo := ph,
          submissionTime := submissionTime, endTime := endTime, description := d,
          createdAt := nowMs, updatedAt := nowMs }
      .ok ({ db with reports := db.reports ++ [r] }, r)
    else .error ⟨"foreign key constraint fails", none⟩
  | _, _, _, _, _ => .error ⟨"Validation error", none⟩

/-- The function `submitReport(reportData, userId)` of `services/form.js`. -/
def submitReport (hostOffsetMs : Int) (db : Db) (reportData userId : JsVal)
    (newId : String) (nowMs : Nat) : Except JsError (Db × Report) :=
  match destructure reportData with
  | .error e => .error e
  | .ok o =>
    let submissionTime := o.get "submissionTime"
    let endTime := o.get "endTime"
    let formattedSubmissionTime : Except JsError (Option String) :=
      if submissionTime.truthy then (normalizeTime hostOffsetMs submissionTime).map some
      else .ok none
    let formattedEndTime : Except JsError (Option String) :=
      if endTime.truthy then (normalizeTime hostOffsetMs endTime).map some
      else .ok none
    match formattedSubmissionTime with
    | .error e => .error e
    | .ok fst =>
      match formattedEndTime with
      | .error e => .error e
      | .ok fet =>
        match fst with
        | none => .error ⟨"Invalid submission time.", none⟩
        | some st =>
          if st = "" then .error ⟨"Invalid submission time.", none⟩
          else
            Report.create db userId (o.get "customerName") (o.get "location")
              (o.get "photoPath") st fet (o.get "description") newId nowMs

/-- Descending creation time: `a` may stand before `b`. -/
def newerFirst (a b : Report) : Prop := b.createdAt ≤ a.createdAt

instance : DecidableRel newerFirst :=
  fun a b => inferInstanceAs (Decidable (b.createdAt ≤ a.createdAt))

instance : IsTotal Report newerFirst :=
  ⟨fun a b => Nat.le_total b.createdAt a.createdAt⟩

instance : IsTrans Report newerFirst :=
  ⟨fun _ _ _ hab hbc => Nat.le_trans hbc hab⟩

/-- The clause `order: [['createdAt', 'DESC']]`. -/
def orderByCreatedAtDesc (rs : List Report) : List Report :=
  rs.insertionSort newerFirst

/-- The rewriting ``photo: report.photo ? `/${report.photo}` : null``. -/
def rewritePhoto (r : Report) : Report :=
  { r with photo :=
      match r.photo with
      | some p => if p = "" then none else some ("/" ++ p)
      | none => none }

/-- The function `getReports(userId, role)` of `services/form.js`.  The
query `where: { userId }` selects on a string, finds no row for `null`
(the column is not nullable) and is rejected for any other value. -/
def getReports (db : Db) (userId role : JsVal) : Except JsError (List Report) :=
  let found : Except JsError (List Report) :=
    if role = .atom (.str "admin") then .ok (orderByCreatedAtDesc db.reports)
    else
      match userId with
      | .atom (.str uid) =>
        .ok (orderByCreatedAtDesc (db.reports.filter (fun r => decide (r.userId = uid))))
      | .atom .null => .ok []
      | _ => .error ⟨"WHERE parameter userId has invalid value", none⟩
  match found with
  | .error e => .error e
  | .ok reports => if reports.length = 0 then .ok [] else .ok (reports.map rewritePhoto)

/-- Length of a civil day in milliseconds. -/
def dayMs : Int := 86400000

/-- The lower bound `todayStart` of `getDailyReports` at instant `nowMs` on
a host whose local time is UTC plus `hostOffsetMs`: the wall clock of
Jakarta is printed, read back as local time of the host, and moved to local
midnight by `setHours(0, 0, 0, 0)`. -/
def todayStart (hostOffsetMs : Int) (nowMs : Nat) : Int :=
  let jakartaNowLocal : Int := ((nowMs : Int) + jakartaOffsetMs) / 1000 * 1000
  jakartaNowLocal / dayMs * dayMs - hostOffsetMs

/-- The upper bound `todayEnd`: the next local midnight. -/
def todayEnd (hostOffsetMs : Int) (nowMs : Nat) : Int :=
  todayStart hostOffsetMs nowMs + dayMs

/-- The function `getDailyReports()` of `services/form.js`. -/
def getDailyReports (hostOffsetMs : Int) (db : Db) (nowMs : Nat) : List Report :=
  (orderByCreatedAtDesc
    (db.reports.filter (fun r =>
      decide (todayStart hostOffsetMs nowMs ≤ (r.createdAt : Int)) &&
      decide ((r.createdAt : Int) < todayEnd hostOffsetMs nowMs)))).map rewritePhoto

/-- The window start the specification asks for: midnight in `Asia/Jakarta`
of the Jakarta civil date that contains the instant `nowMs`. -/
def jakartaMidnight (nowMs : Nat) : Int :=
  ((nowMs : Int) + jakartaOffsetMs) / dayMs * dayMs - jakartaOffsetMs

/-- A function exported by a service module, called with a list of
arguments: host offset, store, arguments, generated id, current time. -/
abbrev ServiceFn :=
  Int → Db → List JsVal → String → Nat → Except JsError (Db × ServiceResult)

/-- The `i`-th argument of a call; a missing argument is `undefined`. -/
def argAt (args : List JsVal) (i : Nat) : JsVal :=
  args.getD i (.atom .undefined)

/-- The object `module.exports = { submitReport, getReports, getDailyReports }`
of `services/form.js`. -/
def reportService : List (String × ServiceFn) :=
  [ ("submitReport", fun host db args newId nowMs =>
      (submitReport host db (argAt args 0) (argAt args 1) newId nowMs).map
        fun p => (p.1, .report p.2)),
    ("getReports", fun _ db args _ _ =>
      (getReports db (argAt args 0) (argAt args 1)).map fun rs => (db, .reports rs)),
    ("getDailyReports", fun host db _ _ nowMs =>
      .ok (db, .reports (getDailyReports host db nowMs))) ]

/-- The call `reportService.name(...args)`: a `TypeError` when the module
exports no property of that name. -/
def callReportService (name : String) (hostOffsetMs : Int) (db : Db)
    (args : List JsVal) (newId : String) (nowMs : Nat) :
    Except JsError (Db × ServiceResult) :=
  match reportService.lookup name with
  | none => .error ⟨"reportService." ++ name ++ " is not a function", none⟩
  | some f => f hostOffsetMs db args newId nowMs

/-! ## User directory service (`services/user.js`) -/

/-- The function `getAllUsers`. -/
def getAllUsers (db : Db) : List PublicUser :=
  db.users.map User.toPublic

/-- The call `User.create({ username, role, password, first_name, last_name,
position, odoo_batch_id })` against `models/User.js`: `username` and
`password` are `allowNull: false` strings, `username` is unique, `role` is
one of the enumeration and defaults to `user`. -/
def User.create (db : Db) (username role password first_name last_name position
    odoo_batch_id : JsAtom) (newId : String) (nowMs : Nat) : Except JsError (Db × User) :=
  let roleValue : Option Role :=
    match role with
    | .undefined => some .user
    | .str s => Role.ofString? s
    | _ => none
  match username.asString?, password.asString?, roleValue with
  | some un, some pw, some r =>
    if db.users.any (fun u => decide (u.username = un)) then
      .error ⟨"Validation error", none⟩
    else
      let u : User :=
        { id := newId, username := un, password := pw, role := r,
          first_name := first_name.asString?, last_name := last_name.asString?,
          position := position.asString?, odoo_batch_id := odoo_batch_id.asString?,
          createdAt := nowMs, updatedAt := nowMs }
      .ok ({ db with users := db.users ++ [u] }, u)
  | _, _, _ => .error ⟨"Validation error", none⟩

/-- The query `User.findOne({ where: { username } })` on a value read from
a request body. -/
def Db.findOneByAtom (db : Db) (username : JsAtom) : Option User :=
  match username with
  | .str s => db.findOneByUsername s
  | _ => none

/-- The function `createUser(userData)`. -/
def createUser (db : Db) (userData : JsObj) (newId : String) (nowMs : Nat) :
    Except JsError (Db × PublicUser) :=
  let username := userData.get "username"
  let role := userData.get "role"
  let password := userData.get "password"
  if !username.truthy || !role.truthy || !password.truthy then
    .error ⟨"Username, role, and password are required", some 400⟩
  else
    match db.findOneByAtom username with
    | some _ => .error ⟨"Username already exists", some 400⟩
    | none =>
      match User.create db username role password (userData.get "firstName")
          (userData.get "lastName") (userData.get "position")
          (userData.get "odooBatchId") newId nowMs with
      | .error e => .error e
      | .ok (db', newUser) => .ok (db', newUser.toPublic)

/-- The `try` block of `createInitialAdmin`, with `process.env.ADMIN_USER`
and `process.env.ADMIN_PASSWORD` as arguments (an unset variable reads as
`undefined`). -/
def createInitialAdminBody (db : Db) (adminUser adminPassword : JsAtom)
    (newId : String) (nowMs : Nat) : Except JsError Db :=
  match db.findOneByUsername "admin" with
  | some _ => .ok db
  | none =>
    match User.create db adminUser (.str "admin") adminPassword .undefined .undefined
        .undefined .undefined newId nowMs with
    | .error e => .error e
    | .ok (db', _) => .ok db'

/-- The function `createInitialAdmin()`: the `catch` clause logs the error
and the function returns normally, leaving the store as it was. -/
def createInitialAdmin (db : Db) (adminUser adminPassword : JsAtom)
    (newId : String) (nowMs : Nat) : Except JsError Db :=
  match createInitialAdminBody db adminUser adminPassword newId nowMs with
  | .ok db' => .ok db'
  | .error _ => .ok db

/-- The row `createInitialAdmin` writes from the bootstrap credentials. -/
def initialAdmin (un pw newId : String) (nowMs : Nat) : User :=
  { id := newId, username := un, password := pw, role := .admin,
    first_name := none, last_name := none, position := none, odoo_batch_id := none,
    createdAt := nowMs, updatedAt := nowMs }

/-- A user record with a password put back: the row it was projected from. -/
def PublicUser.withPassword (p : PublicUser) (password : String) : User :=
  { id := p.id, username := p.username, password := password, role := p.role,
    first_name := p.first_name, last_name := p.last_name,
    position := p.position, odoo_batch_id := p.odoo_batch_id,
    createdAt := p.createdAt, updatedAt := p.updatedAt }

/-! ## Routes (`routes/routes.js`) -/

/-- Process-wide configuration: the token serialisation, the value of
`JWT_SECRET` (unset reads as empty), and the offset of the host clock. -/
structure Env where
  codec : JwtCodec
  jwtSecret : String
  hostOffsetMs : Int

/-- An inbound request: the `Authorization` header, the parsed body (its
fields are strings, `null`, or absent), and the original name of a file
sent in the multipart field `photo`. -/
structure Req where
  authorization : Option String
  body : JsObj
  upload : Option String

/-- The current time in whole seconds, `Math.floor(Date.now() / 1000)`. -/
def clockOf (nowMs : Nat) : Nat := nowMs / 1000

/-- A nullable string column as a JavaScript value. -/
def optAtom (o : Option String) : JsAtom :=
  match o with
  | some s => .str s
  | none => .null

/-- The string-valued properties of the model instance bound to `req.user`
(its two timestamps are `Date` objects and are read by no handler). -/
def PublicUser.toJsObj (u : PublicUser) : JsObj :=
  [ ("id", .str u.id), ("username", .str u.username), ("role", .str u.role.toString),
    ("first_name", optAtom u.first_name), ("last_name", optAtom u.last_name),
    ("position", optAtom u.position), ("odoo_batch_id", optAtom u.odoo_batch_id) ]

/-- The value of `req.user` as an argument. -/
def reqUserVal (user : Option PublicUser) : JsVal :=
  match user with
  | some u => .obj u.toJsObj
  | none => .atom .undefined

/-- The response `res.status(error.statusCode || 500).json({ message })`. -/
def sendError (e : JsError) : Res :=
  ⟨e.status, .message e.message⟩

/-- A route `router.verb(path, protect(r), handler)`: the handler runs when
the gate has called `next`, with the identity the gate bound to `req.user`;
otherwise the responses of the gate stand. -/
def guarded (ctx : Ctx) (db : Db) (handler : Option PublicUser → Db × List Res) :
    Db × List Res :=
  if ctx.nextCalls = 0 then (db, ctx.sent)
  else ((handler ctx.user).1, (handler ctx.user).2 ++ ctx.sent)

/-- The route `POST /login`. -/
def loginRoute (env : Env) (db : Db) (req : Req) (nowMs : Nat) : Res :=
  let username := req.body.get "username"
  let password := req.body.get "password"
  if !username.truthy || !password.truthy then
    ⟨400, .message "Please enter both username and password"⟩
  else
    match db.findOneByAtom username with
    | none => ⟨401, .message "Invalid username or password"⟩
    | some user =>
      if !user.matchPassword password then
        ⟨401, .message "Invalid username or password"⟩
      else
        match jwtSign env.codec user.id user.role env.jwtSecret oneDay (clockOf nowMs) with
        | none => ⟨500, .message "Internal server error"⟩
        | some token => ⟨200, .login "Logged in successfully" token user.role⟩

/-- The route `GET /users`, behind `protect('admin')`. -/
def getUsersRoute (env : Env) (db : Db) (req : Req) (nowMs : Nat) : Db × List Res :=
  guarded (protect env.codec env.jwtSecret (clockOf nowMs) db (some .admin) req.authorization)
    db fun _ => (db, [⟨200, .users (getAllUsers db)⟩])

/-- The route `POST /users`, behind `protect('admin')`. -/
def postUsersRoute (env : Env) (db : Db) (req : Req) (newId : String) (nowMs : Nat) :
    Db × List Res :=
  guarded (protect env.codec env.jwtSecret (clockOf nowMs) db (some .admin) req.authorization)
    db fun _ =>
      match createUser db req.body newId nowMs with
      | .ok (db', newUser) => (db', [⟨201, .user newUser⟩])
      | .error e => (db, [sendError e])

/-- The file object multer binds to `req.file`: the upload is stored under
``uploads/${Date.now()}-${file.originalname}``. -/
def multerFile (req : Req) (nowMs : Nat) : JsAtom :=
  match req.upload with
  | none => .undefined
  | some originalname => .file ("uploads/" ++ toString nowMs ++ "-" ++ originalname)

/-- The route `POST /reports/submit`, behind `protect()` and
`upload.single('photo')`.  The handler builds
`reportData = { ...req.body, photoFile: req.file }` and calls
`reportService.submitReport(req.user, reportData)`: `req.user` is the first
argument and `reportData` the second. -/
def postReportsSubmitRoute (env : Env) (db : Db) (req : Req) (newId : String)
    (nowMs : Nat) : Db × List Res :=
  guarded (protect env.codec env.jwtSecret (clockOf nowMs) db none req.authorization)
    db fun user =>
      let reportData : JsObj := ("photoFile", multerFile req nowMs) :: req.body
      match callReportService "submitReport" env.hostOffsetMs db
          [reqUserVal user, .obj reportData] newId nowMs with
      | .ok (db', newReport) =>
        (db', [⟨201, .submitted "Report submitted successfully" newReport⟩])
      | .error e => (db, [sendError e])

/-- The route `GET /reports`, behind `protect()`.  The handler calls
`reportService.getReportsForUser(req.user)`. -/
def getReportsRoute (env : Env) (db : Db) (req : Req) (newId : String) (nowMs : Nat) :
    Db × List Res :=
  guarded (protect env.codec env.jwtSecret (clockOf nowMs) db none req.authorization)
    db fun user =>
      match callReportService "getReportsForUser" env.hostOffsetMs db
          [reqUserVal user] newId nowMs with
      | .ok (db', reports) => (db', [⟨200, .json reports⟩])
      | .error e => (db, [sendError e])

/-- The route `GET /reports/daily`, behind `protect('admin')`. -/
def getReportsDailyRoute (env : Env) (db : Db) (req : Req) (newId : String)
    (nowMs : Nat) : Db × List Res :=
  guarded (protect env.codec env.jwtSecret (clockOf nowMs) db (some .admin) req.authorization)
    db fun _ =>
      match callReportService "getDailyReports" env.hostOffsetMs db [] newId nowMs with
      | .ok (db', dailyReports) => (db', [⟨200, .json dailyReports⟩])
      | .error e => (db, [sendError e])

/-- The request passes the gate as identity `u`: the header is a bearer
header whose token verifies against the secret, the subject of the token is
the stored identity `u`, and the required role is absent or is the role of
`u`. -/
def Admits (codec : JwtCodec) (secret : String) (clock : Nat) (db : Db)
    (requiredRole : Option Role) (authorization : Option String) (u : User) : Prop :=
  ∃ h decoded, authorization = some h ∧ hasBearer (some h) = true ∧
    jwtVerify codec (bearerToken h) secret clock = some decoded ∧
    db.findByPk decoded.id = some u ∧
    (requiredRole = none ∨ requiredRole = some u.role)

/-! ## Fixtures used to instantiate the theorems -/

/-- A stored identity with role `user`. -/
def demoUser : User :=
  { id := "u1", username := "alice", password := "pw", role := .user,
    first_name := none, last_name := none, position := none, odoo_batch_id := none,
    createdAt := 0, updatedAt := 0 }

/-- A store holding `demoUser` and no report. -/
def demoDb : Db := { users := [demoUser], reports := [] }

/-- The instant of the demonstration login, in milliseconds. -/
def demoNowMs : Nat := 1000000

/-- The token `POST /login` builds for `demoUser` at `demoNowMs` under the
secret `s3cret`. -/
def demoSigned : SignedJwt :=
  { payload := { id := some "u1", role := some .user, iat := 1000,
                 exp := some (1000 + 86400) },
    key := "s3cret" }

/-- A serialisation that writes `demoSigned` as `tok` and reads it back. -/
def demoCodec : JwtCodec :=
  { encode := fun t => if t = demoSigned then "tok" else "other",
    decode := fun s => if s = "tok" then some demoSigned else none }

/-- A configuration on a host at UTC. -/
def demoEnv : Env := { codec := demoCodec, jwtSecret := "s3cret", hostOffsetMs := 0 }

/-- A request that presents the demonstration token. -/
def demoReq (body : JsObj) : Req :=
  { authorization := some "Bearer tok", body := body, upload := none }

/-- A stored identity whose password is the empty string. -/
def ghostUser : User :=
  { id := "u9", username := "ghost", password := "", role := .user,
    first_name := none, last_name := none, position := none, odoo_batch_id := none,
    createdAt := 0, updatedAt := 0 }

/-- A store holding `ghostUser`. -/
def ghostDb : Db := { users := [ghostUser], reports := [] }

/-- A login request with the given body. -/
def loginReq (body : JsObj) : Req :=
  { authorization := none, body := body, upload := none }

/-- An instant at 20:00 UTC on 5 November 2025, which is 03:00 on
6 November in Jakarta. -/
def lateNightMs : Nat := 1762372800000

/-- A report created at `lateNightMs`. -/
def nightReport : Report :=
  { id := "r1", userId := "u1", location := "l", name := "c", photo := none,
    submissionTime := "03:00:00", endTime := none, description := "d",
    createdAt := lateNightMs, updatedAt := lateNightMs }

/-- A store holding `demoUser` and `nightReport`. -/
def nightDb : Db := { users := [demoUser], reports := [nightReport] }

/-! ## Theorems -/

/-- A token that verifies is not falsy. -/
theorem tokenFalsy_of_jwtVerify {codec : JwtCodec} {token : Option String}
    {secret : String} {clock : Nat} {decoded : JwtPayload}
    (h : jwtVerify codec token secret clock = some decoded) :
    tokenFalsy token = false := by
  cases token with
  | none => simp [jwtVerify] at h
  | some t =>
    by_cases ht : t = ""
    · simp [jwtVerify, ht] at h
    · simp [tokenFalsy, ht]

/-- Shape of the gate on a request that is admitted. -/
theorem protect_of_admits {codec : JwtCodec} {secret : String} {clock : Nat} {db : Db}
    {requiredRole : Option Role} {authorization : Option String} {u : User}
    (h : Admits codec secret clock db requiredRole authorization u) :
    protect codec secret clock db requiredRole authorization =
      { user := some u.toPublic, sent := [], nextCalls := 1 } := by
  obtain ⟨hd, decoded, rfl, hb, hv, hf, hr⟩ := h
  have htok := tokenFalsy_of_jwtVerify hv
  rcases hr with rfl | rfl
  · simp [protect, hb, hv, hf, htok]
  · simp [protect, hb, hv, hf, htok, User.toPublic]

/-- Whenever the gate calls `next`, the request is admitted as some stored
identity. -/
theorem admits_of_protect_next {codec : JwtCodec} {secret : String} {clock : Nat} {db : Db}
    {requiredRole : Option Role} {authorization : Option String}
    (h : (protect codec secret clock db requiredRole authorization).nextCalls ≠ 0) :
    ∃ u, Admits codec secret clock db requiredRole authorization u := by
  unfold protect at h
  split at h
  · next hb =>
    cases authorization with
    | none => simp [hasBearer] at hb
    | some hd =>
      simp only [Option.getD_some] at h
      split at h
      · simp at h
      · next decoded hv =>
        cases hf : db.findByPk decoded.id with
        | none => simp [hf] at h
        | some u =>
          simp only [hf, Option.map_some'] at h
          cases requiredRole with
          | none => exact ⟨u, hd, decoded, rfl, hb, hv, hf, Or.inl rfl⟩
          | some r =>
            by_cases hr : u.toPublic.role = r
            · refine ⟨u, hd, decoded, rfl, hb, hv, hf, Or.inr ?_⟩
              rw [← hr]; rfl
            · simp [hr] at h
  · simp at h

/-- C1. For every request and every required role (present or absent),
`protect(requiredRole)` calls `next` only if the bearer token verifies
against the secret, its subject resolves to a stored identity, and the
required role is absent or equal to the role of that identity; conversely,
whenever these hold for an identity `u`, the gate calls `next` (exactly
once), with `req.user` bound to `u` without its password field. -/
theorem protect_calls_next_iff (codec : JwtCodec) (secret : String) (clock : Nat) (db : Db)
    (requiredRole : Option Role) (authorization : Option String) :
    ((protect codec secret clock db requiredRole authorization).nextCalls ≠ 0 ↔
      ∃ u, Admits codec secret clock db requiredRole authorization u) ∧
    (∀ u, Admits codec secret clock db requiredRole authorization u →
      (protect codec secret clock db requiredRole authorization).nextCalls = 1 ∧
      (protect codec secret clock db requiredRole authorization).user = some u.toPublic) := by
  refine ⟨⟨admits_of_protect_next, ?_⟩, ?_⟩
  · rintro ⟨u, hu⟩
    simp [protect_of_admits hu]
  · intro u hu
    simp [protect_of_admits hu]

/-- Instance of C1 on the demonstration store: the request presenting the
token of `alice` reaches the handler with `req.user` bound to her record
without the password. -/
theorem protect_calls_next_iff_witness :
    (protect demoCodec "s3cret" (clockOf demoNowMs) demoDb none (some "Bearer tok")).nextCalls
      = 1 ∧
    (protect demoCodec "s3cret" (clockOf demoNowMs) demoDb none (some "Bearer tok")).user
      = some demoUser.toPublic :=
  (protect_calls_next_iff demoCodec "s3cret" (clockOf demoNowMs) demoDb none
    (some "Bearer tok")).2 demoUser
    ⟨"Bearer tok", demoSigned.payload, rfl, by decide, by decide, by decide, Or.inl rfl⟩

/-- C2. For every request and every required role the gate produces exactly
one outcome: it calls `next` exactly once and writes no response, or it
writes exactly one response and never calls `next`. -/
theorem protect_exactly_one_outcome (codec : JwtCodec) (secret : String) (clock : Nat)
    (db : Db) (requiredRole : Option Role) (authorization : Option String) :
    ((protect codec secret clock db requiredRole authorization).nextCalls = 1 ∧
      (protect codec secret clock db requiredRole authorization).sent = []) ∨
    ((protect codec secret clock db requiredRole authorization).nextCalls = 0 ∧
      (protect codec secret clock db requiredRole authorization).sent.length = 1) := by
  cases hb : hasBearer authorization with
  | false => simp [protect, hb]
  | true =>
    cases hv : jwtVerify codec (bearerToken (authorization.getD "")) secret clock with
    | none => simp [protect, hb, hv]
    | some decoded =>
      have htok := tokenFalsy_of_jwtVerify hv
      cases hf : db.findByPk decoded.id with
      | none => simp [protect, hb, hv, hf]
      | some u =>
        cases requiredRole with
        | none => simp [protect, hb, hv, hf, htok]
        | some r =>
          by_cases hr : u.toPublic.role = r
          · simp [protect, hb, hv, hf, htok, hr]
          · simp [protect, hb, hv, hf, hr]

/-! ### Time of day -/

/-- Facts about the ten digit characters. -/
theorem digitChar_facts : ∀ d < 10,
    (digitChar d).isDigit = true ∧ digitVal (digitChar d) = d ∧
    digitChar d ≠ 'T' ∧ digitChar d ≠ ' ' ∧ digitChar d ≠ 'Z' ∧ digitChar d ≠ '+' ∧
    digitChar d ≠ '-' ∧ digitChar d ≠ ':' ∧ isLineTerminator (digitChar d) = false := by
  decide

theorem unitAlts_colon (rest : List Char) : unitAlts (':' :: rest) = [] := by
  cases rest with
  | nil => rfl
  | cons b r => simp [unitAlts, show ':'.isDigit = false from by decide]

theorem unitAlts_pad2_colon (n : Nat) (hn : n < 100) (rest : List Char) :
    unitAlts (pad2 n ++ ':' :: rest) = [(⟨n, 0⟩, ':' :: rest)] := by
  have h1 := digitChar_facts (n / 10) (by omega)
  have h2 := digitChar_facts (n % 10) (by omega)
  simp [pad2, unitAlts, h1.1, h2.1, h1.2.1, h2.2.1]
  omega

theorem unitAlts_pad2_nil (n : Nat) (hn : n < 100) :
    unitAlts (pad2 n) = [(⟨n, 0⟩, [])] := by
  have h1 := digitChar_facts (n / 10) (by omega)
  have h2 := digitChar_facts (n % 10) (by omega)
  simp [pad2, unitAlts, h1.1, h2.1, h1.2.1, h2.2.1]
  omega

theorem matchTime_hhmmss (h m s : Nat) (hh : h < 100) (hm : m < 100) (hs : s < 100) :
    matchTime (pad2 h ++ ':' :: (pad2 m ++ ':' :: pad2 s))
      = some (⟨h, 0⟩, some ⟨m, 0⟩, some ⟨s, 0⟩) := by
  simp [matchTime, optUnitAlts, sepAlts, unitAlts_pad2_colon, unitAlts_pad2_nil,
    unitAlts_colon, hh, hm, hs]

theorem parseTime_hhmmss (h m s : Nat) (hh : h < 24) (hm : m < 60) (hs : s < 60) :
    parseTime (pad2 h ++ ':' :: (pad2 m ++ ':' :: pad2 s))
      = some (h * 3600000 + m * 60000 + s * 1000) := by
  have hv : validateTime ⟨h, 0⟩ ⟨m, 0⟩ ⟨s, 0⟩ = true := by
    have h24 : ¬ h = 24 := by omega
    simp [validateTime, h24, hh, hm, hs]
    omega
  simp [parseTime, matchTime_hhmmss h m s (by omega) (by omega) (by omega), parseTimeUnit, hv]

theorem parseISOTime_hhmmss (h m s : Nat) (hh : h < 24) (hm : m < 60) (hs : s < 60) :
    parseISOTime (hhmmss h m s) = some (h * 3600000 + m * 60000 + s * 1000) := by
  have a1 := digitChar_facts (h / 10) (by omega)
  have a2 := digitChar_facts (h % 10) (by omega)
  have b1 := digitChar_facts (m / 10) (by omega)
  have b2 := digitChar_facts (m % 10) (by omega)
  have c1 := digitChar_facts (s / 10) (by omega)
  have c2 := digitChar_facts (s % 10) (by omega)
  have hp := parseTime_hhmmss h m s hh hm hs
  have hcolon : isLineTerminator ':' = false := by decide
  simp only [pad2] at hp
  simp [parseISOTime, hhmmss, pad2, a1, a2, b1, b2, c1, c2, hcolon, List.takeWhile]
  simpa using hp

theorem format_zoned (hostOffsetMs : Int) (h m s : Nat) (hm : m < 60) (hs : s < 60) :
    formatHHmmss hostOffsetMs
        (utcToZonedTime hostOffsetMs ((h * 3600000 + m * 60000 + s * 1000 : Nat) : Int))
      = hhmmss ((h + 7) % 24) m s := by
  have e : ((h * 3600000 + m * 60000 + s * 1000 : Nat) : Int) + jakartaOffsetMs
      - hostOffsetMs + hostOffsetMs
        = ((h * 3600000 + m * 60000 + s * 1000 + 25200000 : Nat) : Int) := by
    simp [jakartaOffsetMs]
  simp only [formatHHmmss, utcToZonedTime, e]
  have e1 : (((h * 3600000 + m * 60000 + s * 1000 + 25200000 : Nat) : Int)
      / 3600000 % 24).toNat = (h + 7) % 24 := by omega
  have e2 : (((h * 3600000 + m * 60000 + s * 1000 + 25200000 : Nat) : Int)
      / 60000 % 60).toNat = m := by omega
  have e3 : (((h * 3600000 + m * 60000 + s * 1000 + 25200000 : Nat) : Int)
      / 1000 % 60).toNat = s := by omega
  rw [e1, e2, e3]

/-- C7. For every well-formed time of day `HH:mm:ss` with `HH <= 23`,
`mm <= 59`, `ss <= 59`, the normalisation of `submitReport`,
`format(toJakartaTime(t), 'HH:mm:ss')`, succeeds and returns the zero-padded
text whose hour is `(HH + 7) mod 24` and whose minutes and seconds are
unchanged, whatever the offset of the host from UTC. -/
theorem normalizeTime_wellformed (hostOffsetMs : Int) (h m s : Nat)
    (hh : h < 24) (hm : m < 60) (hs : s < 60) :
    normalizeTime hostOffsetMs (.str (hhmmss h m s))
      = .ok (hhmmss ((h + 7) % 24) m s) := by
  simp [normalizeTime, toJakartaTime, JsAtom.toStr, parseISOTime_hhmmss h m s hh hm hs,
    Except.map]
  exact_mod_cast format_zoned hostOffsetMs h m s hm hs

/-- Witness of C7: the two examples of the claim, on a host five hours
behind UTC. -/
theorem normalizeTime_wellformed_witness :
    (hhmmss 14 30 0 = "14:30:00" ∧
      normalizeTime (-18000000) (.str "14:30:00") = .ok "21:30:00") ∧
    (hhmmss 18 0 0 = "18:00:00" ∧
      normalizeTime (-18000000) (.str "18:00:00") = .ok "01:00:00") :=
  ⟨⟨by decide, normalizeTime_wellformed (-18000000) 14 30 0 (by decide) (by decide) (by decide)⟩,
   ⟨by decide, normalizeTime_wellformed (-18000000) 18 0 0 (by decide) (by decide) (by decide)⟩⟩

/-! ### Status codes of the gate -/

/-- The demonstration request is admitted as `demoUser` when no role is
required. -/
theorem demo_admits : Admits demoCodec "s3cret" (clockOf demoNowMs) demoDb none
    (some "Bearer tok") demoUser :=
  ⟨"Bearer tok", demoSigned.payload, rfl, by decide, by decide, by decide, Or.inl rfl⟩

/-- The gate on a request authenticated as `u` whose role is not the
required one. -/
theorem protect_of_wrong_role {codec : JwtCodec} {secret : String} {clock : Nat} {db : Db}
    {authorization : Option String} {u : User} {r : Role}
    (h : Admits codec secret clock db none authorization u) (hr : u.role ≠ r) :
    protect codec secret clock db (some r) authorization =
      { user := some u.toPublic, sent := [⟨403, .message (msgAccessDenied r)⟩],
        nextCalls := 0 } := by
  obtain ⟨hd, decoded, rfl, hb, hv, hf, -⟩ := h
  have hr' : ¬ u.toPublic.role = r := hr
  simp [protect, hb, hv, hf, hr']

/-- C3. `protect(requiredRole)` answers 403 exactly when the token verifies,
the subject is found, a role is required and the role of the loaded identity
differs from it; every response of the gate is 403 or 401; without a bearer
header the response is 401 `no token provided`, when verification fails it
is 401 `token failed`, when the subject is not stored it is 401 `User not
found`; and the admin-only routes `GET /users`, `POST /users` and
`GET /reports/daily` answer 403, without touching the store, to an
authenticated identity whose role is `user`. -/
theorem protect_status_codes (codec : JwtCodec) (secret : String) (clock : Nat) (db : Db)
    (requiredRole : Option Role) (authorization : Option String) :
    ((∃ res ∈ (protect codec secret clock db requiredRole authorization).sent,
        res.status = 403) ↔
      ∃ u r, Admits codec secret clock db none authorization u ∧
        requiredRole = some r ∧ u.role ≠ r) ∧
    (∀ res ∈ (protect codec secret clock db requiredRole authorization).sent,
        res.status = 403 ∨ res.status = 401) ∧
    (hasBearer authorization = false →
      (protect codec secret clock db requiredRole authorization).sent
        = [⟨401, .message msgNoToken⟩]) ∧
    (hasBearer authorization = true →
      jwtVerify codec (bearerToken (authorization.getD "")) secret clock = none →
      (protect codec secret clock db requiredRole authorization).sent
        = [⟨401, .message msgTokenFailed⟩]) ∧
    (∀ decoded, hasBearer authorization = true →
      jwtVerify codec (bearerToken (authorization.getD "")) secret clock = some decoded →
      db.findByPk decoded.id = none →
      (protect codec secret clock db requiredRole authorization).sent
        = [⟨401, .message msgUserNotFound⟩]) ∧
    (∀ (env : Env) (req : Req) (newId : String) (nowMs : Nat) (u : User),
      Admits env.codec env.jwtSecret (clockOf nowMs) db none req.authorization u →
      u.role = .user →
      getUsersRoute env db req nowMs = (db, [⟨403, .message (msgAccessDenied .admin)⟩]) ∧
      postUsersRoute env db req newId nowMs
        = (db, [⟨403, .message (msgAccessDenied .admin)⟩]) ∧
      getReportsDailyRoute env db req newId nowMs
        = (db, [⟨403, .message (msgAccessDenied .admin)⟩])) := by
  refine ⟨⟨?_, ?_⟩, ?_, ?_, ?_, ?_, ?_⟩
  · rintro ⟨res, hmem, hst⟩
    cases hb : hasBearer authorization with
    | false =>
      simp [protect, hb] at hmem
      subst hmem
      simp at hst
    | true =>
      cases hv : jwtVerify codec (bearerToken (authorization.getD "")) secret clock with
      | none =>
        simp [protect, hb, hv] at hmem
        subst hmem
        simp at hst
      | some decoded =>
        have htok := tokenFalsy_of_jwtVerify hv
        cases hf : db.findByPk decoded.id with
        | none =>
          simp [protect, hb, hv, hf] at hmem
          subst hmem
          simp at hst
        | some u =>
          cases requiredRole with
          | none => simp [protect, hb, hv, hf, htok] at hmem
          | some r =>
            by_cases hr : u.toPublic.role = r
            · simp [protect, hb, hv, hf, htok, hr] at hmem
            · cases authorization with
              | none => simp [hasBearer] at hb
              | some hd =>
                exact ⟨u, r, ⟨hd, decoded, rfl, hb, hv, hf, Or.inl rfl⟩, rfl, hr⟩
  · rintro ⟨u, r, hu, rfl, hr⟩
    rw [protect_of_wrong_role hu hr]
    exact ⟨_, List.mem_singleton_self _, rfl⟩
  · intro res hmem
    cases hb : hasBearer authorization with
    | false =>
      simp [protect, hb] at hmem
      subst hmem
      simp
    | true =>
      cases hv : jwtVerify codec (bearerToken (authorization.getD "")) secret clock with
      | none =>
        simp [protect, hb, hv] at hmem
        subst hmem
        simp
      | some decoded =>
        have htok := tokenFalsy_of_jwtVerify hv
        cases hf : db.findByPk decoded.id with
        | none =>
          simp [protect, hb, hv, hf] at hmem
          subst hmem
          simp
        | some u =>
          cases requiredRole with
          | none => simp [protect, hb, hv, hf, htok] at hmem
          | some r =>
            by_cases hr : u.toPublic.role = r
            · simp [protect, hb, hv, hf, htok, hr] at hmem
            · simp [protect, hb, hv, hf, hr] at hmem
              subst hmem
              simp
  · intro hb
    simp [protect, hb]
  · intro hb hv
    simp [protect, hb, hv]
  · intro decoded hb hv hf
    simp [protect, hb, hv, hf]
  · intro env req newId nowMs u hu hrole
    have hr : u.role ≠ Role.admin := by rw [hrole]; decide
    have hp := protect_of_wrong_role hu hr
    simp [getUsersRoute, postUsersRoute, getReportsDailyRoute, hp, guarded]

/-- Instance of C3 on the demonstration store: `demoUser`, whose role is
`user`, receives 403 from the three admin-only routes. -/
theorem protect_status_codes_witness :
    getUsersRoute demoEnv demoDb (demoReq []) demoNowMs
        = (demoDb, [⟨403, .message "Access denied. Requires 'admin' role."⟩]) ∧
    postUsersRoute demoEnv demoDb (demoReq []) "u2" demoNowMs
        = (demoDb, [⟨403, .message "Access denied. Requires 'admin' role."⟩]) ∧
    getReportsDailyRoute demoEnv demoDb (demoReq []) "u2" demoNowMs
        = (demoDb, [⟨403, .message "Access denied. Requires 'admin' role."⟩]) :=
  (protect_status_codes demoCodec "s3cret" (clockOf demoNowMs) demoDb none
    (some "Bearer tok")).2.2.2.2.2 demoEnv (demoReq []) "u2" demoNowMs demoUser
    demo_admits rfl

/-! ### Login -/

/-- With unique usernames, the lookup by the username of a stored identity
finds that identity. -/
theorem findOneByUsername_of_mem {db : Db} {u : User}
    (huniq : ∀ a ∈ db.users, ∀ b ∈ db.users, a.username = b.username → a = b)
    (hu : u ∈ db.users) : db.findOneByUsername u.username = some u := by
  unfold Db.findOneByUsername
  cases hf : db.users.find? (fun v => decide (v.username = u.username)) with
  | none =>
    have := List.find?_eq_none.mp hf u hu
    simp at this
  | some v =>
    have hv : v ∈ db.users := List.mem_of_find?_eq_some hf
    have hp := List.find?_some hf
    simp at hp
    rw [huniq v hv u hu hp]

/-- Counterexample to C4 as stated: the stored identity `ghost` has the
empty password; the pair `(ghost, "")` matches it, yet `POST /login` answers
400 and issues no token. -/
theorem login_empty_password_counterexample :
    ghostUser ∈ ghostDb.users ∧
    ghostDb.findOneByUsername "ghost" = some ghostUser ∧
    ghostUser.matchPassword (.str "") = true ∧
    loginRoute demoEnv ghostDb
        (loginReq [("username", .str "ghost"), ("password", .str "")]) demoNowMs
      = ⟨400, .message "Please enter both username and password"⟩ := by
  decide

/-- C4, amended. For every stored identity whose username and password are
non-empty and every request carrying exactly that username and password,
`POST /login` answers 200 with a token and with the role of that identity in
the `role` field, and verifying the token at any time before its expiry
yields a payload carrying the id and the role of that identity.  Usernames
are unique in the store, the secret is configured, and the serialisation
reads the issued token back. -/
theorem login_issues_token (env : Env) (db : Db) (req : Req) (nowMs : Nat) (u : User)
    (huniq : ∀ a ∈ db.users, ∀ b ∈ db.users, a.username = b.username → a = b)
    (hu : u ∈ db.users)
    (hname : req.body.get "username" = .str u.username)
    (hpw : req.body.get "password" = .str u.password)
    (hne1 : u.username ≠ "") (hne2 : u.password ≠ "")
    (hsecret : env.jwtSecret ≠ "")
    (hcodec : env.codec.decode
        (env.codec.encode (issuedToken u.id u.role env.jwtSecret oneDay (clockOf nowMs)))
      = some (issuedToken u.id u.role env.jwtSecret oneDay (clockOf nowMs)))
    (hnonempty :
      env.codec.encode (issuedToken u.id u.role env.jwtSecret oneDay (clockOf nowMs)) ≠ "") :
    ∃ token,
      loginRoute env db req nowMs = ⟨200, .login "Logged in successfully" token u.role⟩ ∧
      ∀ clock, clock < clockOf nowMs + oneDay →
        ∃ p, jwtVerify env.codec (some token) env.jwtSecret clock = some p ∧
          p.id = some u.id ∧ p.role = some u.role := by
  refine ⟨env.codec.encode (issuedToken u.id u.role env.jwtSecret oneDay (clockOf nowMs)),
    ?_, ?_⟩
  · simp [loginRoute, hname, hpw, JsAtom.truthy, hne1, hne2, Db.findOneByAtom,
      findOneByUsername_of_mem huniq hu, User.matchPassword, jwtSign, hsecret]
  · intro clock hclock
    refine ⟨(issuedToken u.id u.role env.jwtSecret oneDay (clockOf nowMs)).payload, ?_, rfl, rfl⟩
    have hlt : ¬ clockOf nowMs + oneDay ≤ clock := by omega
    simp only [jwtVerify, hnonempty, hcodec, hsecret, if_false]
    simp [issuedToken, hlt]

/-- Witness of the amended C4: `alice` logs in on the demonstration store. -/
theorem login_issues_token_witness :
    ∃ token,
      loginRoute demoEnv demoDb
          (loginReq [("username", .str "alice"), ("password", .str "pw")]) demoNowMs
        = ⟨200, .login "Logged in successfully" token .user⟩ ∧
      ∀ clock, clock < clockOf demoNowMs + oneDay →
        ∃ p, jwtVerify demoCodec (some token) "s3cret" clock = some p ∧
          p.id = some "u1" ∧ p.role = some .user :=
  login_issues_token demoEnv demoDb
    (loginReq [("username", .str "alice"), ("password", .str "pw")]) demoNowMs demoUser
    (by decide) (by decide) (by decide) (by decide) (by decide) (by decide) (by decide)
    (by decide) (by decide)

/-- Counterexample to C5 as stated: the request names `alice` and carries
no password; the pair matches no stored identity, and `POST /login` answers
400, not 401. -/
theorem login_missing_password_counterexample :
    (∀ u ∈ demoDb.users,
      ¬ (JsObj.get [("username", .str "alice")] "username" = .str u.username ∧
         JsObj.get [("username", .str "alice")] "password" = .str u.password)) ∧
    loginRoute demoEnv demoDb (loginReq [("username", .str "alice")]) demoNowMs
      = ⟨400, .message "Please enter both username and password"⟩ := by
  decide

/-- C5, amended. For every pair `(username, password)` that matches no
stored identity, the response of `POST /login` carries no token; it is 400
when the username or the password is missing or empty, and 401 when both are
present (unknown username or wrong password). -/
theorem login_rejects_nonmatching (env : Env) (db : Db) (req : Req) (nowMs : Nat)
    (hno : ∀ u ∈ db.users,
      ¬ (req.body.get "username" = .str u.username ∧
         req.body.get "password" = .str u.password)) :
    (loginRoute env db req nowMs).token? = none ∧
    ((req.body.get "username").truthy = false ∨ (req.body.get "password").truthy = false →
      loginRoute env db req nowMs
        = ⟨400, .message "Please enter both username and password"⟩) ∧
    ((req.body.get "username").truthy = true → (req.body.get "password").truthy = true →
      loginRoute env db req nowMs = ⟨401, .message "Invalid username or password"⟩) := by
  have key : (req.body.get "username").truthy = true →
      (req.body.get "password").truthy = true →
      loginRoute env db req nowMs = ⟨401, .message "Invalid username or password"⟩ := by
    intro h1 h2
    cases hf : db.findOneByAtom (req.body.get "username") with
    | none => simp [loginRoute, h1, h2, hf]
    | some v =>
      have hmatch : v.matchPassword (req.body.get "password") = false := by
        cases hun : req.body.get "username" with
        | str n =>
          rw [hun] at hf
          simp only [Db.findOneByAtom, Db.findOneByUsername] at hf
          have hv : v ∈ db.users := List.mem_of_find?_eq_some hf
          have hp := List.find?_some hf
          simp at hp
          by_contra hm
          simp [User.matchPassword] at hm
          exact hno v hv ⟨by rw [hun, hp], hm⟩
        | undefined => rw [hun] at hf; simp [Db.findOneByAtom] at hf
        | null => rw [hun] at hf; simp [Db.findOneByAtom] at hf
        | file _ => rw [hun] at hf; simp [Db.findOneByAtom] at hf
      simp [loginRoute, h1, h2, hf, hmatch]
  have bad : (req.body.get "username").truthy = false ∨
      (req.body.get "password").truthy = false →
      loginRoute env db req nowMs
        = ⟨400, .message "Please enter both username and password"⟩ := by
    intro h
    rcases h with h | h
    · simp [loginRoute, h]
    · simp [loginRoute, h]
  refine ⟨?_, bad, key⟩
  cases h1 : (req.body.get "username").truthy with
  | false => rw [bad (Or.inl h1)]; rfl
  | true =>
    cases h2 : (req.body.get "password").truthy with
    | false => rw [bad (Or.inr h2)]; rfl
    | true => rw [key h1 h2]; rfl

/-- Witness of the amended C5: a wrong password for `alice` is answered
with 401 and without a token. -/
theorem login_rejects_nonmatching_witness :
    (loginRoute demoEnv demoDb
        (loginReq [("username", .str "alice"), ("password", .str "nope")]) demoNowMs).token?
      = none ∧
    loginRoute demoEnv demoDb
        (loginReq [("username", .str "alice"), ("password", .str "nope")]) demoNowMs
      = ⟨401, .message "Invalid username or password"⟩ :=
  have h := login_rejects_nonmatching demoEnv demoDb
    (loginReq [("username", .str "alice"), ("password", .str "nope")]) demoNowMs (by decide)
  ⟨h.1, h.2.2 (by decide) (by decide)⟩

/-! ### Expiry -/

/-- A token that `POST /login` returns is the serialisation of the token
stamped for some stored identity at the clock of the request. -/
theorem login_token_eq {env : Env} {db : Db} {req : Req} {nowMs : Nat} {token : String}
    (h : (loginRoute env db req nowMs).token? = some token) :
    ∃ user : User,
      token = env.codec.encode
        (issuedToken user.id user.role env.jwtSecret oneDay (clockOf nowMs)) := by
  simp only [loginRoute] at h
  split at h
  · simp [Res.token?] at h
  · split at h
    · simp [Res.token?] at h
    · next user _ =>
      split at h
      · simp [Res.token?] at h
      · split at h
        · simp [Res.token?] at h
        · next tok hs =>
          simp only [Res.token?, Option.some.injEq] at h
          subst h
          refine ⟨user, ?_⟩
          unfold jwtSign at hs
          split at hs
          · simp at hs
          · simpa using hs.symm

/-- C6. Every token issued by `POST /login` expires exactly 86400 seconds
after its issued-at time; when the serialisation reads the token back, the
gate answers every request that presents it at a clock at or after that
expiry with a single 401 and never calls `next`; and verification fails
closed: whenever `jwt.verify` throws on the bearer token, the gate answers
401 `token failed`, binds no identity and never calls `next`. -/
theorem issued_token_expires (env : Env) (db : Db) (req : Req) (nowMs : Nat) (token : String)
    (hlogin : (loginRoute env db req nowMs).token? = some token) :
    (∃ st : SignedJwt,
      token = env.codec.encode st ∧ st.key = env.jwtSecret ∧
      st.payload.iat = clockOf nowMs ∧ st.payload.exp = some (st.payload.iat + 86400) ∧
      (env.codec.decode token = some st →
        ∀ (db' : Db) (requiredRole : Option Role) (h : String) (clock : Nat),
          bearerToken h = some token → st.payload.iat + 86400 ≤ clock →
          (protect env.codec env.jwtSecret clock db' requiredRole (some h)).nextCalls = 0 ∧
          ∃ m, (protect env.codec env.jwtSecret clock db' requiredRole (some h)).sent
            = [⟨401, .message m⟩])) ∧
    (∀ (codec : JwtCodec) (secret : String) (clock : Nat) (db' : Db)
        (requiredRole : Option Role) (authorization : Option String),
      hasBearer authorization = true →
      jwtVerify codec (bearerToken (authorization.getD "")) secret clock = none →
      protect codec secret clock db' requiredRole authorization
        = { user := none, sent := [⟨401, .message msgTokenFailed⟩], nextCalls := 0 }) := by
  refine ⟨?_, ?_⟩
  · obtain ⟨user, rfl⟩ := login_token_eq hlogin
    refine ⟨issuedToken user.id user.role env.jwtSecret oneDay (clockOf nowMs),
      rfl, rfl, rfl, rfl, ?_⟩
    intro hdec db' requiredRole h clock hbt hexp
    have hexp' : clockOf nowMs + 86400 ≤ clock := hexp
    have hv : jwtVerify env.codec (bearerToken h) env.jwtSecret clock = none := by
      rw [hbt]
      simp only [jwtVerify, hdec]
      simp [issuedToken, oneDay, hexp']
    cases hb : hasBearer (some h) with
    | false => simp [protect, hb]
    | true => simp [protect, hb, hv]
  · intro codec secret clock db' requiredRole authorization hb hv
    simp [protect, hb, hv]

/-- Witness of C6: the token issued to `alice` at second 1000 is rejected at
second 87400. -/
theorem issued_token_expires_witness :
    (loginRoute demoEnv demoDb
        (loginReq [("username", .str "alice"), ("password", .str "pw")]) demoNowMs).token?
      = some "tok" ∧
    protect demoCodec "s3cret" 87400 demoDb none (some "Bearer tok")
      = { user := none, sent := [⟨401, .message msgTokenFailed⟩], nextCalls := 0 } :=
  ⟨by decide,
   (issued_token_expires demoEnv demoDb
      (loginReq [("username", .str "alice"), ("password", .str "pw")]) demoNowMs "tok"
      (by decide)).2 demoCodec "s3cret" 87400 demoDb none (some "Bearer tok")
      (by decide) (by decide)⟩

/-! ### Report submission and listing through the routes -/

/-- The model instance bound to `req.user` has no property `submissionTime`
and no property `endTime`, so the call `submitReport(req.user, reportData)`
of the route throws `Invalid submission time.` for every identity and every
body. -/
theorem submit_call_of_route (hostOffsetMs : Int) (db : Db) (u : PublicUser)
    (reportData : JsObj) (newId : String) (nowMs : Nat) :
    callReportService "submitReport" hostOffsetMs db
        [reqUserVal (some u), .obj reportData] newId nowMs
      = .error ⟨"Invalid submission time.", none⟩ := by
  rfl

/-- The module `services/form.js` exports no `getReportsForUser`. -/
theorem list_call_of_route (hostOffsetMs : Int) (db : Db) (args : List JsVal)
    (newId : String) (nowMs : Nat) :
    callReportService "getReportsForUser" hostOffsetMs db args newId nowMs
      = .error ⟨"reportService.getReportsForUser is not a function", none⟩ := by
  rfl

/-- Without a required role the gate either admits the request or answers
with a single 401. -/
theorem protect_none_shape (codec : JwtCodec) (secret : String) (clock : Nat) (db : Db)
    (authorization : Option String) :
    (∃ u, Admits codec secret clock db none authorization u) ∨
    ((protect codec secret clock db none authorization).nextCalls = 0 ∧
      ∃ m, (protect codec secret clock db none authorization).sent
        = [⟨401, .message m⟩]) := by
  cases hb : hasBearer authorization with
  | false => right; simp [protect, hb]
  | true =>
    cases hv : jwtVerify codec (bearerToken (authorization.getD "")) secret clock with
    | none => right; simp [protect, hb, hv]
    | some decoded =>
      cases hf : db.findByPk decoded.id with
      | none => right; simp [protect, hb, hv, hf]
      | some u =>
        left
        cases authorization with
        | none => simp [hasBearer] at hb
        | some hd => exact ⟨u, hd, decoded, rfl, hb, hv, hf, Or.inl rfl⟩

/-- The route `POST /reports/submit` on a request the gate admits. -/
theorem postReportsSubmitRoute_of_admits {env : Env} {db : Db} {req : Req} {newId : String}
    {nowMs : Nat} {u : User}
    (h : Admits env.codec env.jwtSecret (clockOf nowMs) db none req.authorization u) :
    postReportsSubmitRoute env db req newId nowMs
      = (db, [⟨500, .message "Invalid submission time."⟩]) := by
  simp only [postReportsSubmitRoute, protect_of_admits h, guarded, submit_call_of_route]
  rfl

/-- C8, the behaviour of the code. A submission whose `submissionTime` is
`25:99:99`, or is missing, or whose `endTime` is `25:99:99`, makes
`submitReport` throw an error without a `statusCode`; the route turns such
an error into status 500; and `POST /reports/submit` never changes the store
and never answers anything but 401 or 500, so no request receives 400. -/
theorem submit_invalid_time_status :
    (∀ (host : Int) (db : Db) (userId : JsVal) (newId : String) (nowMs : Nat),
      submitReport host db (.obj [("submissionTime", .str "25:99:99")]) userId newId nowMs
        = .error ⟨"Invalid UTC time format: 25:99:99", none⟩) ∧
    (∀ (host : Int) (db : Db) (userId : JsVal) (newId : String) (nowMs : Nat),
      submitReport host db (.obj []) userId newId nowMs
        = .error ⟨"Invalid submission time.", none⟩) ∧
    (∀ (host : Int) (db : Db) (userId : JsVal) (newId : String) (nowMs : Nat),
      submitReport host db
          (.obj [("submissionTime", .str "09:00:00"), ("endTime", .str "25:99:99")])
          userId newId nowMs
        = .error ⟨"Invalid UTC time format: 25:99:99", none⟩) ∧
    (∀ e : JsError, e.statusCode = none → sendError e = ⟨500, .message e.message⟩) ∧
    (∀ (env : Env) (db : Db) (req : Req) (newId : String) (nowMs : Nat),
      (postReportsSubmitRoute env db req newId nowMs).1 = db ∧
      ∀ res ∈ (postReportsSubmitRoute env db req newId nowMs).2,
        res.status = 401 ∨ res.status = 500) := by
  refine ⟨fun _ _ _ _ _ => rfl, fun _ _ _ _ _ => rfl, fun _ _ _ _ _ => rfl, ?_, ?_⟩
  · intro e he
    simp [sendError, JsError.status, he]
  · intro env db req newId nowMs
    rcases protect_none_shape env.codec env.jwtSecret (clockOf nowMs) db req.authorization
      with ⟨u, hu⟩ | ⟨hn, m, hm⟩
    · rw [postReportsSubmitRoute_of_admits hu]
      simp
    · simp [postReportsSubmitRoute, guarded, hn, hm]

/-- C9, the behaviour of the code. For every authenticated identity and
every body, in particular `submissionTime = 09:00:00` without `endTime` and
without a file, `POST /reports/submit` answers 500 and persists nothing, and
`GET /reports` answers 500. -/
theorem submit_then_list_fails (env : Env) (db : Db) (req : Req) (newId : String)
    (nowMs : Nat) (u : User)
    (h : Admits env.codec env.jwtSecret (clockOf nowMs) db none req.authorization u) :
    postReportsSubmitRoute env db req newId nowMs
      = (db, [⟨500, .message "Invalid submission time."⟩]) ∧
    getReportsRoute env db req newId nowMs
      = (db, [⟨500, .message "reportService.getReportsForUser is not a function"⟩]) := by
  refine ⟨postReportsSubmitRoute_of_admits h, ?_⟩
  simp only [getReportsRoute, protect_of_admits h, guarded, list_call_of_route]
  rfl

/-- Witness of C9: `alice` submits `09:00:00` and then lists her reports. -/
theorem submit_then_list_fails_witness :
    postReportsSubmitRoute demoEnv demoDb
        (demoReq [("customerName", .str "c"), ("location", .str "l"),
          ("submissionTime", .str "09:00:00"), ("description", .str "d")]) "r1" demoNowMs
      = (demoDb, [⟨500, .message "Invalid submission time."⟩]) ∧
    getReportsRoute demoEnv demoDb
        (demoReq [("customerName", .str "c"), ("location", .str "l"),
          ("submissionTime", .str "09:00:00"), ("description", .str "d")]) "r1" demoNowMs
      = (demoDb, [⟨500, .message "reportService.getReportsForUser is not a function"⟩]) :=
  submit_then_list_fails demoEnv demoDb
    (demoReq [("customerName", .str "c"), ("location", .str "l"),
      ("submissionTime", .str "09:00:00"), ("description", .str "d")]) "r1" demoNowMs
    demoUser demo_admits

/-! ### Report listing -/

/-- Rewriting the photo keeps the order by creation time. -/
theorem sorted_map_rewritePhoto {l : List Report} (h : l.Sorted newerFirst) :
    (l.map rewritePhoto).Sorted newerFirst := by
  unfold List.Sorted at h ⊢
  rw [List.pairwise_map]
  exact h

/-- The shortcut for an empty result returns what the mapping would. -/
theorem getReports_tail (l : List Report) :
    (if l.length = 0 then (Except.ok [] : Except JsError (List Report))
      else .ok (l.map rewritePhoto)) = .ok (l.map rewritePhoto) := by
  cases l with
  | nil => rfl
  | cons a t => simp

/-- C10. For every store, every requester id and every role, `getReports`
succeeds; when the role is not `admin` the result is, up to order, exactly
the stored reports owned by the requester (each with its photo rewritten),
so it holds no report of another owner and misses none of the requester; when
the role is `admin` it is, up to order, every stored report.  The result is
ordered by creation time descending, it is the empty list when nothing
matches, and the photo of a returned report is `/` followed by the stored
path when a (non-empty) path is stored and null otherwise, all other fields
being those of the stored report. -/
theorem getReports_spec (db : Db) (uid : String) (userId role : JsVal) :
    (role ≠ .atom (.str "admin") →
      ∃ rs, getReports db (.atom (.str uid)) role = .ok rs ∧
        rs.Perm ((db.reports.filter (fun r => decide (r.userId = uid))).map rewritePhoto) ∧
        (∀ r ∈ rs, r.userId = uid) ∧
        rs.Sorted newerFirst ∧
        ((∀ r ∈ db.reports, r.userId ≠ uid) → rs = [])) ∧
    (role = .atom (.str "admin") →
      ∃ rs, getReports db userId role = .ok rs ∧
        rs.Perm (db.reports.map rewritePhoto) ∧
        rs.Sorted newerFirst ∧
        (db.reports = [] → rs = [])) ∧
    (∀ r : Report,
      (∀ p, r.photo = some p → p ≠ "" → (rewritePhoto r).photo = some ("/" ++ p)) ∧
      (r.photo = none ∨ r.photo = some "" → (rewritePhoto r).photo = none) ∧
      { rewritePhoto r with photo := r.photo } = r) := by
  refine ⟨?_, ?_, ?_⟩
  · intro hrole
    refine ⟨(orderByCreatedAtDesc
      (db.reports.filter (fun r => decide (r.userId = uid)))).map rewritePhoto, ?_, ?_, ?_, ?_, ?_⟩
    · simp only [getReports, hrole, if_false, getReports_tail]
    · exact (List.perm_insertionSort _ _).map _
    · intro r hr
      obtain ⟨r0, hr0, rfl⟩ := List.mem_map.mp hr
      have hmem := (List.mem_insertionSort newerFirst).mp hr0
      have := (List.mem_filter.mp hmem).2
      simpa [rewritePhoto] using this
    · exact sorted_map_rewritePhoto (List.sorted_insertionSort _ _)
    · intro hnone
      have : db.reports.filter (fun r => decide (r.userId = uid)) = [] := by
        rw [List.filter_eq_nil_iff]
        intro r hr
        simpa using hnone r hr
      rw [this]
      rfl
  · intro hrole
    refine ⟨(orderByCreatedAtDesc db.reports).map rewritePhoto, ?_, ?_, ?_, ?_⟩
    · simp only [getReports, hrole, if_true, getReports_tail]
    · exact (List.perm_insertionSort _ _).map _
    · exact sorted_map_rewritePhoto (List.sorted_insertionSort _ _)
    · intro h
      rw [h]
      rfl
  · intro r
    refine ⟨?_, ?_, ?_⟩
    · intro p hp hne
      simp [rewritePhoto, hp, hne]
    · rintro (h | h) <;> simp [rewritePhoto, h]
    · rfl

/-! ### Daily window -/

/-- The window of `getDailyReports` starts at Jakarta midnight moved by the
difference between the offset of Jakarta and the offset of the host. -/
theorem todayStart_eq (hostOffsetMs : Int) (nowMs : Nat) :
    todayStart hostOffsetMs nowMs
      = jakartaMidnight nowMs + (jakartaOffsetMs - hostOffsetMs) := by
  simp only [todayStart, jakartaMidnight, jakartaOffsetMs, dayMs]
  omega

/-- Membership in the result of `getDailyReports`. -/
theorem mem_getDailyReports (hostOffsetMs : Int) (db : Db) (nowMs : Nat) (r : Report) :
    r ∈ getDailyReports hostOffsetMs db nowMs ↔
      ∃ r0 ∈ db.reports, r = rewritePhoto r0 ∧
        todayStart hostOffsetMs nowMs ≤ (r0.createdAt : Int) ∧
        (r0.createdAt : Int) < todayEnd hostOffsetMs nowMs := by
  simp only [getDailyReports, orderByCreatedAtDesc, List.mem_map, List.mem_insertionSort,
    List.mem_filter, Bool.and_eq_true, decide_eq_true_eq]
  constructor
  · rintro ⟨r0, ⟨hmem, h1, h2⟩, rfl⟩
    exact ⟨r0, hmem, rfl, h1, h2⟩
  · rintro ⟨r0, hmem, rfl, h1, h2⟩
    exact ⟨r0, ⟨hmem, h1, h2⟩, rfl⟩

/-- C11, the behaviour of the code. The window of `getDailyReports` is
`[start, start + 24h)` and the result holds exactly the reports created in
it, but `start` is the Jakarta midnight of the claim moved by the difference
between the offset of Jakarta and the offset of the host.  On a host at
UTC+7 the window is the Jakarta day and contains the current instant; on a
host at UTC it starts seven hours late, and a report created at 20:00 UTC
(03:00 in Jakarta), queried at that same instant, is not returned. -/
theorem getDailyReports_window :
    (∀ (host : Int) (nowMs : Nat),
      todayStart host nowMs = jakartaMidnight nowMs + (jakartaOffsetMs - host) ∧
      todayEnd host nowMs = todayStart host nowMs + 86400000) ∧
    (∀ (host : Int) (db : Db) (nowMs : Nat) (r : Report),
      r ∈ getDailyReports host db nowMs ↔
        ∃ r0 ∈ db.reports, r = rewritePhoto r0 ∧
          todayStart host nowMs ≤ (r0.createdAt : Int) ∧
          (r0.createdAt : Int) < todayEnd host nowMs) ∧
    (∀ nowMs : Nat,
      todayStart jakartaOffsetMs nowMs = jakartaMidnight nowMs ∧
      todayStart jakartaOffsetMs nowMs ≤ (nowMs : Int) ∧
      (nowMs : Int) < todayEnd jakartaOffsetMs nowMs) ∧
    (jakartaMidnight lateNightMs = 1762362000000 ∧
      todayStart 0 lateNightMs = 1762387200000 ∧
      nightReport ∈ nightDb.reports ∧ nightReport.createdAt = lateNightMs ∧
      jakartaMidnight lateNightMs ≤ (lateNightMs : Int) ∧
      (lateNightMs : Int) < jakartaMidnight lateNightMs + 86400000 ∧
      getDailyReports 0 nightDb lateNightMs = []) := by
  refine ⟨fun host nowMs => ⟨todayStart_eq host nowMs, rfl⟩, mem_getDailyReports, ?_, ?_⟩
  · intro nowMs
    refine ⟨?_, ?_, ?_⟩
    · rw [todayStart_eq]; simp
    · simp only [todayStart, jakartaOffsetMs, dayMs]; omega
    · simp only [todayEnd, todayStart, jakartaOffsetMs, dayMs]; omega
  · decide

/-! ### User directory -/

/-- No stored username equals `un` exactly when the lookup finds nothing. -/
theorem any_username_eq_false_iff (db : Db) (un : String) :
    db.users.any (fun u => decide (u.username = un)) = false ↔
      db.findOneByUsername un = none := by
  simp [Db.findOneByUsername, List.find?_eq_none]

theorem toPublic_withPassword (p : PublicUser) (pw : String) :
    (p.withPassword pw).toPublic = p := rfl

/-- The bootstrap when an account named `admin` exists. -/
theorem createInitialAdmin_of_admin {db : Db} {a : User} (adminUser adminPassword : JsAtom)
    (newId : String) (nowMs : Nat) (h : db.findOneByUsername "admin" = some a) :
    createInitialAdmin db adminUser adminPassword newId nowMs = .ok db := by
  simp [createInitialAdmin, createInitialAdminBody, h]

/-- The bootstrap when no account named `admin` exists and the configured
credentials are strings. -/
theorem createInitialAdmin_of_strings {db : Db} (un pw newId : String) (nowMs : Nat)
    (h : db.findOneByUsername "admin" = none) :
    createInitialAdmin db (.str un) (.str pw) newId nowMs =
      if db.users.any (fun u => decide (u.username = un)) then .ok db
      else .ok { db with users := db.users ++ [initialAdmin un pw newId nowMs] } := by
  have hr : Role.ofString? "admin" = some Role.admin := by decide
  by_cases hc : db.users.any (fun u => decide (u.username = un)) = true
  · simp only [createInitialAdmin, createInitialAdminBody, h, User.create, JsAtom.asString?,
      hr, if_pos hc]
  · simp only [createInitialAdmin, createInitialAdminBody, h, User.create, JsAtom.asString?,
      hr, if_neg hc]
    rfl

/-- The bootstrap when no account named `admin` exists and a credential is
not a string. -/
theorem createInitialAdmin_of_missing {db : Db} (adminUser adminPassword : JsAtom)
    (newId : String) (nowMs : Nat) (h : db.findOneByUsername "admin" = none)
    (hm : adminUser.asString? = none ∨ adminPassword.asString? = none) :
    createInitialAdmin db adminUser adminPassword newId nowMs = .ok db := by
  have hr : Role.ofString? "admin" = some Role.admin := by decide
  rcases hm with hm | hm
  · cases adminUser <;> cases adminPassword <;>
      simp_all [createInitialAdmin, createInitialAdminBody, User.create, JsAtom.asString?]
  · cases adminUser <;> cases adminPassword <;>
      simp_all [createInitialAdmin, createInitialAdminBody, User.create, JsAtom.asString?]

/-- Counterexample to C14 as stated: no account named `admin` exists, yet
nothing is created when the configured username `alice` is already taken,
and nothing is created when the bootstrap variables are unset. -/
theorem createInitialAdmin_creates_nothing_counterexample :
    demoDb.findOneByUsername "admin" = none ∧
    createInitialAdmin demoDb (.str "alice") (.str "x") "a1" demoNowMs = .ok demoDb ∧
    createInitialAdmin demoDb .undefined .undefined "a1" demoNowMs = .ok demoDb := by
  decide

/-- C14, amended. For every store and every bootstrap configuration,
`createInitialAdmin` never throws; running it a second time leaves the store
as the first run left it; if an account named `admin` exists it creates
nothing; if none exists, both bootstrap variables are set and no stored
identity has the configured username, it appends exactly one identity, with
role `admin` and the configured credentials; and if none exists but a
variable is unset or the configured username is taken, the creation is
rejected and the store is left as it was. -/
theorem createInitialAdmin_idempotent (db : Db) (adminUser adminPassword : JsAtom)
    (newId : String) (nowMs : Nat) :
    (∃ db1, createInitialAdmin db adminUser adminPassword newId nowMs = .ok db1) ∧
    (∀ (db1 : Db) (newId2 : String) (nowMs2 : Nat),
      createInitialAdmin db adminUser adminPassword newId nowMs = .ok db1 →
      createInitialAdmin db1 adminUser adminPassword newId2 nowMs2 = .ok db1) ∧
    (∀ a, db.findOneByUsername "admin" = some a →
      createInitialAdmin db adminUser adminPassword newId nowMs = .ok db) ∧
    (∀ un pw, db.findOneByUsername "admin" = none →
      adminUser = .str un → adminPassword = .str pw → db.findOneByUsername un = none →
      createInitialAdmin db adminUser adminPassword newId nowMs
        = .ok { db with users := db.users ++ [initialAdmin un pw newId nowMs] }) ∧
    (db.findOneByUsername "admin" = none →
      (adminUser.asString? = none ∨ adminPassword.asString? = none ∨
        ∃ un v, adminUser = .str un ∧ db.findOneByUsername un = some v) →
      createInitialAdmin db adminUser adminPassword newId nowMs = .ok db) := by
  have created : ∀ un pw, db.findOneByUsername "admin" = none →
      db.findOneByUsername un = none →
      createInitialAdmin db (.str un) (.str pw) newId nowMs
        = .ok { db with users := db.users ++ [initialAdmin un pw newId nowMs] } := by
    intro un pw hA hfree
    rw [createInitialAdmin_of_strings un pw newId nowMs hA,
      (any_username_eq_false_iff db un).mpr hfree]
    rfl
  have taken : ∀ un pw v, db.findOneByUsername "admin" = none →
      db.findOneByUsername un = some v →
      createInitialAdmin db (.str un) (.str pw) newId nowMs = .ok db := by
    intro un pw v hA hv
    have hany : db.users.any (fun u => decide (u.username = un)) = true := by
      cases hc : db.users.any (fun u => decide (u.username = un)) with
      | true => rfl
      | false => rw [(any_username_eq_false_iff db un).mp hc] at hv; cases hv
    rw [createInitialAdmin_of_strings un pw newId nowMs hA, if_pos hany]
  refine ⟨?_, ?_, ?_, ?_, ?_⟩
  · cases hb : createInitialAdminBody db adminUser adminPassword newId nowMs with
    | ok d => exact ⟨d, by simp [createInitialAdmin, hb]⟩
    | error e => exact ⟨db, by simp [createInitialAdmin, hb]⟩
  · intro db1 newId2 nowMs2 h1
    cases hA : db.findOneByUsername "admin" with
    | some a =>
      rw [createInitialAdmin_of_admin adminUser adminPassword newId nowMs hA] at h1
      cases h1
      exact createInitialAdmin_of_admin adminUser adminPassword newId2 nowMs2 hA
    | none =>
      by_cases hm : adminUser.asString? = none ∨ adminPassword.asString? = none
      · rw [createInitialAdmin_of_missing adminUser adminPassword newId nowMs hA hm] at h1
        cases h1
        exact createInitialAdmin_of_missing adminUser adminPassword newId2 nowMs2 hA hm
      · obtain ⟨un, rfl⟩ : ∃ un, adminUser = .str un := by
          cases adminUser <;> simp [JsAtom.asString?] at hm ⊢
        obtain ⟨pw, rfl⟩ : ∃ pw, adminPassword = .str pw := by
          cases adminPassword <;> simp [JsAtom.asString?] at hm ⊢
        rw [createInitialAdmin_of_strings un pw newId nowMs hA] at h1
        by_cases hc : db.users.any (fun u => decide (u.username = un)) = true
        · rw [if_pos hc] at h1
          cases h1
          rw [createInitialAdmin_of_strings un pw newId2 nowMs2 hA, if_pos hc]
        · rw [if_neg hc] at h1
          cases h1
          by_cases hadm : un = "admin"
          · apply createInitialAdmin_of_admin (a := initialAdmin un pw newId nowMs)
            simp only [Db.findOneByUsername] at hA ⊢
            rw [List.find?_append, hA]
            simp [initialAdmin, hadm]
          · have hA2 : Db.findOneByUsername
                { db with users := db.users ++ [initialAdmin un pw newId nowMs] } "admin"
                  = none := by
              simp only [Db.findOneByUsername] at hA ⊢
              rw [List.find?_append, hA]
              simp [initialAdmin, hadm]
            rw [createInitialAdmin_of_strings un pw newId2 nowMs2 hA2]
            simp [initialAdmin]
  · intro a ha
    exact createInitialAdmin_of_admin adminUser adminPassword newId nowMs ha
  · intro un pw hA hu hp hfree
    subst hu
    subst hp
    exact created un pw hA hfree
  · intro hA hm
    rcases hm with hm | hm | ⟨un, v, rfl, hv⟩
    · exact createInitialAdmin_of_missing adminUser adminPassword newId nowMs hA (Or.inl hm)
    · exact createInitialAdmin_of_missing adminUser adminPassword newId nowMs hA (Or.inr hm)
    · cases hp : adminPassword.asString? with
      | none =>
        exact createInitialAdmin_of_missing _ adminPassword newId nowMs hA (Or.inr hp)
      | some pw =>
        obtain rfl : adminPassword = .str pw := by
          cases adminPassword <;> simp [JsAtom.asString?] at hp
          rw [hp]
        exact taken un pw v hA hv

/-- Instance of the amended C14 on the demonstration store: the bootstrap
with the credentials `root` / `x` appends one administrator, and a second
run changes nothing. -/
theorem createInitialAdmin_idempotent_witness :
    createInitialAdmin demoDb (.str "root") (.str "x") "a1" demoNowMs
      = .ok { demoDb with users := demoDb.users ++ [initialAdmin "root" "x" "a1" demoNowMs] } ∧
    createInitialAdmin
        { demoDb with users := demoDb.users ++ [initialAdmin "root" "x" "a1" demoNowMs] }
        (.str "root") (.str "x") "a2" (demoNowMs + 1)
      = .ok { demoDb with users := demoDb.users ++ [initialAdmin "root" "x" "a1" demoNowMs] } :=
  have h := createInitialAdmin_idempotent demoDb (.str "root") (.str "x") "a1" demoNowMs
  have h1 := h.2.2.2.1 "root" "x" (by decide) rfl rfl (by decide)
  ⟨h1, h.2.1 _ "a2" (demoNowMs + 1) h1⟩

end ReportApp
